import Mathlib

/-!
Verification development for the scrobble-deduplicator repository
(`internal/app/app.go` and `internal/cache/cache.go`).

Shallow embedding conventions:
* Go `time.Time` / `time.Duration` values are modelled as `Int` in one common
  time unit; `time.Time.Sub` is integer subtraction.
* Go `float64` arithmetic inside the classifiers is modelled as exact
  rational (`ℚ`) arithmetic on the same expressions.
* Go maps (`map[string]string`, `map[string]map[string]string`) are modelled
  as association lists; lookups return the first matching entry.
* The sha256 hex digest used to build the cache key is modelled by the query
  string itself (an injective stand-in for the digest).
* External effects (`time.ParseDuration`, the MusicBrainz search after its
  retry wrapper, the Last.fm page lookup, the browser delete action, the
  per-page scrobble fetch after its retry wrapper) are uninterpreted
  functions collected in an `Env` record.
-/

namespace ScrobbleDedup

/-- The `scrobble` struct from `internal/app/app.go`.  `timestamp` is the
instant parsed from the raw unix stamp, `timestampString` the verbatim raw
stamp, `trackDuration` the duration filled in by `getTrackDuration`
(zero until then, as in `generateScrobble`). -/
structure Scrobble where
  artist : String
  track : String
  timestamp : Int
  timestampString : String
  trackDuration : Int
  url : String
deriving DecidableEq, Repr

/-- The Go type `durationByTrackByArtist` (`map[string]map[string]string`),
as an association list of association lists. -/
abbrev DurationByTrackByArtist := List (String × List (String × String))

/-- The `stats` struct (run counters) from the app `Config`. -/
structure RunStats where
  cacheHits : Nat
  cacheMisses : Nat
  processedScrobbles : Nat
  unknownTrackDurationsCount : Nat
  skippedScrobbleUnknownDuration : Nat
  scrobbleDeleteFails : Nat
deriving DecidableEq, Repr

/-- One call of `deleteScrobble(c, timestamp, deleteCurrentScrobble)`:
the raw timestamp identifier addressed, and whether the xpath selects the
last (`[last()]`) matching row, i.e. the current rather than the previous
scrobble. -/
structure DeleteRequest where
  timestamp : String
  selectLast : Bool
deriving DecidableEq, Repr

/-- The run-relevant portion of the app `Config`: thresholds, delete switch,
the cache contents, the `unknownTrackDurations` accumulator, the run
counters, the `deletedScrobbles` accumulator, plus a trace of the delete
requests issued through `deleteScrobbleWithRetries`. -/
structure Cfg where
  duplicateThreshold : Int
  completeThreshold : Int
  canDelete : Bool
  cache : List (String × String)
  unknownTrackDurations : DurationByTrackByArtist
  runStats : RunStats
  deletedScrobbles : List Scrobble
  deleteRequests : List DeleteRequest
deriving DecidableEq, Repr

/-- Uninterpreted external collaborators (Go standard library and I/O). -/
structure Env where
  /-- `time.ParseDuration`; `none` models a parse error (Go then yields the
  zero duration alongside the error). -/
  parseDuration : String → Option Int
  /-- `time.Duration.String`, used when writing a resolved duration back to
  the cache. -/
  durationText : Int → String
  /-- `backoff.Retry` around `getTrackDurationFromMusicBrainz`: `Except.ok d`
  is a completed search (`d = 0` when no recording was found), `Except.error`
  a search failure surviving all retries. -/
  musicBrainz : String → String → Except Unit Int
  /-- `getTrackDurationFromLastFM` on the scrobble url; `none` models the
  error path (which leaves the Go duration at zero). -/
  lastFM : String → Option Int
  /-- Whether `deleteScrobbleWithRetries` eventually succeeds for the given
  raw timestamp / select-last flag. -/
  deleteOk : String → Bool → Bool
  /-- `backoff.Retry` around `getScrobbles` for a page, already reversed
  into chronological order as `getScrobbles` does. -/
  pageScrobbles : Int → List Scrobble

/-- The completion-percentage expression shared verbatim by
`detectDuplicateScrobble` and `detectIncompleteScrobble`:
`min((float64(elapsed)/float64(trackDuration))*100, 100)`. -/
def completionPercentage (elapsed trackDuration : ℚ) : ℚ :=
  min (elapsed / trackDuration * 100) 100

/-- `detectDuplicateScrobble` from `internal/app/app.go` (the threshold is
`Config.DuplicateThreshold`, a Go `int`). -/
def detectDuplicateScrobble (duplicateThreshold : Int)
    (previousScrobble currentScrobble : Scrobble) : Bool :=
  if currentScrobble.artist = previousScrobble.artist ∧
      currentScrobble.track = previousScrobble.track ∧
      currentScrobble.timestamp ≠ previousScrobble.timestamp then
    decide (completionPercentage
        ((currentScrobble.timestamp - previousScrobble.timestamp : Int) : ℚ)
        (currentScrobble.trackDuration : ℚ)
      < (duplicateThreshold : ℚ))
  else
    false

/-- `detectIncompleteScrobble` from `internal/app/app.go` (the threshold is
`Config.CompleteThreshold`); note the absence of any artist/track guard. -/
def detectIncompleteScrobble (completeThreshold : Int)
    (previousScrobble currentScrobble : Scrobble) : Bool :=
  decide (completionPercentage
      ((currentScrobble.timestamp - previousScrobble.timestamp : Int) : ℚ)
      (currentScrobble.trackDuration : ℚ)
    < (completeThreshold : ℚ))

theorem completionPercentage_eq_min (g D : ℚ) :
    completionPercentage g D = min 100 (100 * g / D) := by
  unfold completionPercentage
  rw [min_comm]
  congr 1
  ring

/-- C1: for adjacent duration-annotated scrobbles with a positive current
track duration and a duplicate threshold in `[0,100]`, the classifier marks
the pair duplicate exactly when the artists and tracks agree, the timestamps
differ, and `min(100, 100 * Elapsed / current.trackDuration)` is below the
threshold, where `Elapsed = current.timestamp - previous.timestamp`. -/
theorem detectDuplicateScrobble_iff (duplicateThreshold : Int)
    (previousScrobble currentScrobble : Scrobble)
    (h0 : 0 ≤ duplicateThreshold) (h100 : duplicateThreshold ≤ 100)
    (hD : 0 < currentScrobble.trackDuration) :
    detectDuplicateScrobble duplicateThreshold previousScrobble currentScrobble = true ↔
      (previousScrobble.artist = currentScrobble.artist ∧
       previousScrobble.track = currentScrobble.track ∧
       previousScrobble.timestamp ≠ currentScrobble.timestamp ∧
       min 100 (100 * ((currentScrobble.timestamp : ℚ) - (previousScrobble.timestamp : ℚ))
           / (currentScrobble.trackDuration : ℚ))
         < (duplicateThreshold : ℚ)) := by
  unfold detectDuplicateScrobble
  split_ifs with h
  · obtain ⟨h1, h2, h3⟩ := h
    simp only [decide_eq_true_eq, completionPercentage_eq_min]
    constructor
    · intro hlt
      refine ⟨h1.symm, h2.symm, fun he => h3 he.symm, ?_⟩
      push_cast at hlt ⊢
      exact hlt
    · rintro ⟨-, -, -, hlt⟩
      push_cast at hlt ⊢
      exact hlt
  · simp only [false_iff]
    rintro ⟨h1, h2, h3, -⟩
    exact h ⟨h1.symm, h2.symm, fun he => h3 he.symm⟩

/-- Sample previous scrobble (same track, start of play). -/
def samplePrevious : Scrobble :=
  { artist := "Artist A", track := "Track T", timestamp := 0
    timestampString := "1754948000", trackDuration := 240, url := "u1" }

/-- Sample current scrobble 120 time units later on a 240-unit track. -/
def sampleCurrent : Scrobble :=
  { artist := "Artist A", track := "Track T", timestamp := 120
    timestampString := "1754948120", trackDuration := 240, url := "u2" }

theorem detectDuplicateScrobble_iff_witness :
    (0 ≤ (90 : Int)) ∧ ((90 : Int) ≤ 100) ∧ (0 < sampleCurrent.trackDuration) ∧
      (detectDuplicateScrobble 90 samplePrevious sampleCurrent = true ↔
        (samplePrevious.artist = sampleCurrent.artist ∧
         samplePrevious.track = sampleCurrent.track ∧
         samplePrevious.timestamp ≠ sampleCurrent.timestamp ∧
         min 100 (100 * ((sampleCurrent.timestamp : ℚ) - (samplePrevious.timestamp : ℚ))
             / (sampleCurrent.trackDuration : ℚ))
           < ((90 : Int) : ℚ))) :=
  ⟨by decide, by decide, by decide,
    detectDuplicateScrobble_iff 90 samplePrevious sampleCurrent
      (by decide) (by decide) (by decide)⟩

/-- C9: for a positive track duration `D` and a nonnegative elapsed gap `g`,
the classifier's completion percentage is `min(100, 100*g/D)`, and it is
exactly `100` whenever `g ≥ D`. -/
theorem completionPercentage_spec (g D : ℚ) (hD : 0 < D) (hg : 0 ≤ g) :
    completionPercentage g D = min 100 (100 * g / D) ∧
      (D ≤ g → completionPercentage g D = 100) := by
  refine ⟨completionPercentage_eq_min g D, fun hge => ?_⟩
  unfold completionPercentage
  have h1 : (1 : ℚ) ≤ g / D := (one_le_div hD).mpr hge
  have : (100 : ℚ) ≤ g / D * 100 := by linarith
  exact min_eq_right this

theorem completionPercentage_spec_witness :
    (0 < (240 : ℚ)) ∧ (0 ≤ (300 : ℚ)) ∧
      (completionPercentage 300 240 = min 100 (100 * 300 / 240) ∧
        ((240 : ℚ) ≤ 300 → completionPercentage 300 240 = 100)) :=
  ⟨by norm_num, by norm_num, completionPercentage_spec 300 240 (by norm_num) (by norm_num)⟩

/-- The MusicBrainz search query built in `getTrackDuration`:
`artist:"%s" AND recording:"%s"`. -/
def mbQuery (artist track : String) : String :=
  "artist:\"" ++ artist ++ "\" AND recording:\"" ++ track ++ "\""

/-- The cache key `mbquery:%x` built from the sha256 of the query; the hex
digest is modelled by the query string itself (an injective stand-in). -/
def cacheKey (artist track : String) : String :=
  "mbquery:" ++ mbQuery artist track

/-- `InMemory.Get` from `internal/cache/cache.go`: map lookup, `none` is the
`ErrCacheMiss` case. -/
def cacheGet (cache : List (String × String)) (key : String) : Option String :=
  (cache.find? (fun kv => kv.1 == key)).map (fun kv => kv.2)

/-- Modelled from the spec: the cache `Delete` operation.  The `Cache`
interface in `internal/cache/cache.go` as shipped under src lacks `Delete`
although `getTrackDuration` calls it; §4.1 of the spec specifies `Delete(key)`
as removal of the key from the in-memory mapping. -/
def cacheDelete (cache : List (String × String)) (key : String) : List (String × String) :=
  cache.filter (fun kv => kv.1 != key)

/-- `InMemory.Set` from `internal/cache/cache.go`: map assignment. -/
def cacheSet (cache : List (String × String)) (key value : String) : List (String × String) :=
  (key, value) :: cacheDelete cache key

/-- Lookup in a `durationByTrackByArtist` value returning the Go zero value
`""` when either level is missing; `lookupDuration m a t ≠ ""` is exactly the
Go guard `m != nil && m[a] != nil && m[a][t] != ""`. -/
def lookupDuration (m : DurationByTrackByArtist) (artist track : String) : String :=
  match m.find? (fun kv => kv.1 == artist) with
  | none => ""
  | some av =>
    match av.2.find? (fun kv => kv.1 == track) with
    | none => ""
    | some tv => tv.2

/-- The Go membership test
`c.unknownTrackDurations[artist] != nil && (_, found := ...[track]; found)`. -/
def unknownContains (m : DurationByTrackByArtist) (artist track : String) : Bool :=
  match m.find? (fun kv => kv.1 == artist) with
  | none => false
  | some av => (av.2.find? (fun kv => kv.1 == track)).isSome

/-- Insertion of `(artist, track) ↦ ""` into a `durationByTrackByArtist`
value, creating the inner map when absent (as `addToUnknownTrackDurations`
does). -/
def unknownInsert (m : DurationByTrackByArtist) (artist track : String) :
    DurationByTrackByArtist :=
  if (m.find? (fun kv => kv.1 == artist)).isSome then
    m.map (fun kv => if kv.1 == artist then (kv.1, (track, "") :: kv.2) else kv)
  else
    (artist, [(track, "")]) :: m

/-- The distinguishable error results of `getTrackDuration`. -/
inductive TrackDurationError where
  /-- `ErrUnknownTrackAlreadyInMap`. -/
  | unknownTrackAlreadyInMap
  /-- the `fmt.Errorf("track %s - %s, saved to unknown track durations")`
  result produced on first registration. -/
  | savedToUnknownTrackDurations
  /-- `failed to get track duration from MusicBrainz API` (retries
  exhausted). -/
  | musicBrainzFailed
  /-- `failed to parse cached track duration`. -/
  | cachedDurationParseFailed
deriving DecidableEq, Repr

/-- `addToUnknownTrackDurations` from `internal/app/app.go`: registers the
pair and bumps `unknownTrackDurationsCount` on first sight (returning the
"saved to unknown track durations" error), or returns
`ErrUnknownTrackAlreadyInMap` without touching anything. -/
def addToUnknownTrackDurations (c : Cfg) (artist track : String) :
    Except TrackDurationError Unit × Cfg :=
  if unknownContains c.unknownTrackDurations artist track then
    (Except.error TrackDurationError.unknownTrackAlreadyInMap, c)
  else
    (Except.error TrackDurationError.savedToUnknownTrackDurations,
      { c with
          unknownTrackDurations := unknownInsert c.unknownTrackDurations artist track,
          runStats := { c.runStats with
            unknownTrackDurationsCount := c.runStats.unknownTrackDurationsCount + 1 } })

/-- `getTrackDuration` from `internal/app/app.go`.  Returns the Go error
result, the (possibly duration-annotated) scrobble the caller's pointer sees
afterwards, and the updated config state.  The override tier mirrors the
source exactly: a parse failure is logged and the zero-value duration is
stored before returning `nil`. -/
def getTrackDuration (env : Env) (c : Cfg)
    (userTrackDurations : DurationByTrackByArtist) (s : Scrobble) :
    Except TrackDurationError Unit × Scrobble × Cfg :=
  if lookupDuration userTrackDurations s.artist s.track ≠ "" then
    (Except.ok (),
      { s with trackDuration :=
          (env.parseDuration (lookupDuration userTrackDurations s.artist s.track)).getD 0 },
      c)
  else if unknownContains c.unknownTrackDurations s.artist s.track then
    (Except.error TrackDurationError.unknownTrackAlreadyInMap, s, c)
  else
    match cacheGet c.cache (cacheKey s.artist s.track) with
    | none =>
      let c1 := { c with runStats := { c.runStats with
        cacheMisses := c.runStats.cacheMisses + 1 } }
      match env.musicBrainz s.artist s.track with
      | Except.error _ => (Except.error TrackDurationError.musicBrainzFailed, s, c1)
      | Except.ok mbDuration =>
        let trackDuration : Int :=
          if mbDuration == 0 then (env.lastFM s.url).getD 0 else mbDuration
        if trackDuration ≤ 0 then
          let r := addToUnknownTrackDurations c1 s.artist s.track
          (r.1, s, r.2)
        else
          let newCache :=
            cacheSet c1.cache (cacheKey s.artist s.track) (env.durationText trackDuration)
          (Except.ok (), { s with trackDuration := trackDuration },
            { c1 with cache := newCache })
    | some cached =>
      let c1 := { c with runStats := { c.runStats with
        cacheHits := c.runStats.cacheHits + 1 } }
      match env.parseDuration cached with
      | none =>
        (Except.error TrackDurationError.cachedDurationParseFailed,
          { s with trackDuration := 0 }, c1)
      | some d =>
        if d ≤ 0 then
          let c2 := { c1 with cache := cacheDelete c1.cache (cacheKey s.artist s.track) }
          let r := addToUnknownTrackDurations c2 s.artist s.track
          (r.1, { s with trackDuration := d }, r.2)
        else
          (Except.ok (), { s with trackDuration := d }, c1)

/-- C5: a cache hit whose stored duration parses to a non-positive value is
treated as a negative cache entry — the stale entry is deleted from the
cache, the pair is registered in `unknownTrackDurations` (bumping the
unknown-durations counter once), and the resolver fails with the
"saved to unknown track durations" error instead of returning the
non-positive duration as a success. -/
theorem getTrackDuration_negativeCacheEntry (env : Env) (c : Cfg)
    (ov : DurationByTrackByArtist) (s : Scrobble) (cached : String) (d : Int)
    (hov : lookupDuration ov s.artist s.track = "")
    (hunk : unknownContains c.unknownTrackDurations s.artist s.track = false)
    (hhit : cacheGet c.cache (cacheKey s.artist s.track) = some cached)
    (hparse : env.parseDuration cached = some d)
    (hd : d ≤ 0) :
    getTrackDuration env c ov s =
      (Except.error TrackDurationError.savedToUnknownTrackDurations,
       { s with trackDuration := d },
       { c with
          cache := cacheDelete c.cache (cacheKey s.artist s.track),
          unknownTrackDurations := unknownInsert c.unknownTrackDurations s.artist s.track,
          runStats := { c.runStats with
            cacheHits := c.runStats.cacheHits + 1,
            unknownTrackDurationsCount := c.runStats.unknownTrackDurationsCount + 1 } }) := by
  simp [getTrackDuration, addToUnknownTrackDurations, hov, hunk, hhit, hparse, hd]

/-- C6: a pair already registered in `unknownTrackDurations` (and not
satisfied by an override) fails fast with `ErrUnknownTrackAlreadyInMap`,
leaving the scrobble and the whole config state — cache, cache-hit and
cache-miss counters included — untouched. -/
theorem getTrackDuration_alreadyUnknown (env : Env) (c : Cfg)
    (ov : DurationByTrackByArtist) (s : Scrobble)
    (hov : lookupDuration ov s.artist s.track = "")
    (hunk : unknownContains c.unknownTrackDurations s.artist s.track = true) :
    getTrackDuration env c ov s =
      (Except.error TrackDurationError.unknownTrackAlreadyInMap, s, c) := by
  simp [getTrackDuration, hov, hunk]

/-- Environment whose duration-string parser accepts exactly `"-1s"`. -/
def envNegCache : Env :=
  { parseDuration := fun str => if str == "-1s" then some (-1) else none
    durationText := fun _ => ""
    musicBrainz := fun _ _ => Except.ok 0
    lastFM := fun _ => none
    deleteOk := fun _ _ => true
    pageScrobbles := fun _ => [] }

/-- Overrides entry whose duration string does not parse. -/
def overridesBad : DurationByTrackByArtist := [("Artist A", [("Track T", "4m0s!!")])]

/-- Environment in which every duration-string parse fails. -/
def envParseFail : Env :=
  { parseDuration := fun _ => none
    durationText := fun _ => ""
    musicBrainz := fun _ _ => Except.ok 0
    lastFM := fun _ => none
    deleteOk := fun _ _ => true
    pageScrobbles := fun _ => [] }

/-- A config with empty cache, no unknown durations and zeroed counters. -/
def cfgEmpty : Cfg :=
  { duplicateThreshold := 50, completeThreshold := 0, canDelete := false
    cache := [], unknownTrackDurations := []
    runStats := ⟨0, 0, 0, 0, 0, 0⟩
    deletedScrobbles := [], deleteRequests := [] }

/-- `cfgEmpty` with `("Artist A", "Track T")` already registered unknown. -/
def cfgUnknownAT : Cfg :=
  { cfgEmpty with unknownTrackDurations := [("Artist A", [("Track T", "")])] }

/-- The scrobble covered by `overridesBad`. -/
def scrobbleOverridden : Scrobble :=
  { artist := "Artist A", track := "Track T", timestamp := 0
    timestampString := "100", trackDuration := 0, url := "u" }

/-- C7 evaluation: with a non-empty override whose duration string fails to
parse, `getTrackDuration` returns success with the zero-value duration from
the overrides tier and touches no further tier — here the pair is even
already registered in `unknownTrackDurations`, so a fall-through would have
failed with `ErrUnknownTrackAlreadyInMap`, yet the result is `ok` and the
state is returned unchanged. -/
theorem getTrackDuration_overrideParseFailure_eval :
    lookupDuration overridesBad scrobbleOverridden.artist scrobbleOverridden.track ≠ "" ∧
    envParseFail.parseDuration
      (lookupDuration overridesBad scrobbleOverridden.artist scrobbleOverridden.track) = none ∧
    unknownContains cfgUnknownAT.unknownTrackDurations
      scrobbleOverridden.artist scrobbleOverridden.track = true ∧
    getTrackDuration envParseFail cfgUnknownAT overridesBad scrobbleOverridden =
      (Except.ok (), scrobbleOverridden, cfgUnknownAT) := by
  refine ⟨by decide, rfl, by decide, rfl⟩

/-- `cfgEmpty` whose cache holds a stale `"-1s"` entry for
`("Artist A", "Track T")`. -/
def cfgNegCache : Cfg :=
  { cfgEmpty with cache := [(cacheKey "Artist A" "Track T", "-1s")] }

theorem getTrackDuration_negativeCacheEntry_witness :
    (lookupDuration [] scrobbleOverridden.artist scrobbleOverridden.track = "") ∧
    (unknownContains cfgNegCache.unknownTrackDurations
      scrobbleOverridden.artist scrobbleOverridden.track = false) ∧
    (cacheGet cfgNegCache.cache (cacheKey scrobbleOverridden.artist scrobbleOverridden.track)
      = some "-1s") ∧
    (envNegCache.parseDuration "-1s" = some (-1)) ∧
    ((-1 : Int) ≤ 0) ∧
    getTrackDuration envNegCache cfgNegCache [] scrobbleOverridden =
      (Except.error TrackDurationError.savedToUnknownTrackDurations,
       { scrobbleOverridden with trackDuration := -1 },
       { cfgNegCache with
          cache := cacheDelete cfgNegCache.cache
            (cacheKey scrobbleOverridden.artist scrobbleOverridden.track),
          unknownTrackDurations := unknownInsert cfgNegCache.unknownTrackDurations
            scrobbleOverridden.artist scrobbleOverridden.track,
          runStats := { cfgNegCache.runStats with
            cacheHits := cfgNegCache.runStats.cacheHits + 1,
            unknownTrackDurationsCount :=
              cfgNegCache.runStats.unknownTrackDurationsCount + 1 } }) :=
  ⟨rfl, by decide, by decide, by decide, by decide,
    getTrackDuration_negativeCacheEntry envNegCache cfgNegCache [] scrobbleOverridden
      "-1s" (-1) rfl (by decide) (by decide) (by decide) (by decide)⟩

theorem getTrackDuration_alreadyUnknown_witness :
    (lookupDuration [] scrobbleOverridden.artist scrobbleOverridden.track = "") ∧
    (unknownContains cfgUnknownAT.unknownTrackDurations
      scrobbleOverridden.artist scrobbleOverridden.track = true) ∧
    getTrackDuration envParseFail cfgUnknownAT [] scrobbleOverridden =
      (Except.error TrackDurationError.unknownTrackAlreadyInMap,
        scrobbleOverridden, cfgUnknownAT) :=
  ⟨rfl, by decide,
    getTrackDuration_alreadyUnknown envParseFail cfgUnknownAT [] scrobbleOverridden
      rfl (by decide)⟩

/-- `deleteScrobbleWithRetries` from `internal/app/app.go`: records the
delete request it addresses at the browser, returns whether one of the
retried attempts succeeded, and bumps `scrobbleDeleteFails` otherwise. -/
def deleteScrobbleWithRetries (env : Env) (c : Cfg)
    (timestamp : String) (deleteCurrentScrobble : Bool) : Bool × Cfg :=
  let c1 := { c with deleteRequests :=
    c.deleteRequests ++ [⟨timestamp, deleteCurrentScrobble⟩] }
  if env.deleteOk timestamp deleteCurrentScrobble then
    (true, c1)
  else
    (false, { c1 with runStats := { c1.runStats with
      scrobbleDeleteFails := c1.runStats.scrobbleDeleteFails + 1 } })

/-- `processPreviousAndCurrentScrobbles` from `internal/app/app.go`:
resolves the current scrobble's duration, on failure bumps the skipped
counter and hands the (unresolved) current scrobble back as the new
previous; otherwise runs duplicate detection (removing the previous
scrobble) and, gated on `CompleteThreshold > 0`, incomplete detection
(removing the current scrobble).  Returns the scrobble the caller keeps as
`previousScrobble` plus the updated state. -/
def processPreviousAndCurrentScrobbles (env : Env) (c : Cfg)
    (previousScrobble : Option Scrobble) (currentScrobble : Scrobble)
    (userTrackDurations : DurationByTrackByArtist) : Scrobble × Cfg :=
  match getTrackDuration env c userTrackDurations currentScrobble with
  | (Except.error _, cur, c1) =>
    (cur, { c1 with runStats := { c1.runStats with
      skippedScrobbleUnknownDuration := c1.runStats.skippedScrobbleUnknownDuration + 1 } })
  | (Except.ok _, cur, c1) =>
    match previousScrobble with
    | none => (cur, c1)
    | some prev =>
      if detectDuplicateScrobble c1.duplicateThreshold prev cur then
        let c2 := { c1 with deletedScrobbles := c1.deletedScrobbles ++ [cur] }
        if c2.canDelete then
          (cur, (deleteScrobbleWithRetries env c2 prev.timestampString false).2)
        else
          (cur, c2)
      else if 0 < c1.completeThreshold then
        if detectIncompleteScrobble c1.completeThreshold prev cur then
          let c2 := { c1 with deletedScrobbles := c1.deletedScrobbles ++ [cur] }
          if c2.canDelete then
            let r := deleteScrobbleWithRetries env c2 cur.timestampString true
            if r.1 then (prev, r.2) else (cur, r.2)
          else
            (prev, c2)
        else
          (cur, c1)
      else
        (cur, c1)

/-- The inner loop of `processScrobblesFromStartToEndPage`: one page's
scrobbles folded through `processPreviousAndCurrentScrobbles`, starting —
as in the source — from a freshly declared nil `previousScrobble`, bumping
`processedScrobbles` after each record. -/
def processPageScrobbles (env : Env) (c : Cfg) (scrobbles : List Scrobble)
    (userTrackDurations : DurationByTrackByArtist) : Option Scrobble × Cfg :=
  scrobbles.foldl
    (fun acc s =>
      let r := processPreviousAndCurrentScrobbles env acc.2 acc.1 s userTrackDurations
      (some r.1, { r.2 with runStats := { r.2.runStats with
        processedScrobbles := r.2.runStats.processedScrobbles + 1 } }))
    ((none : Option Scrobble), c)

/-- `processScrobblesFromStartToEndPage` from `internal/app/app.go`:
walks pages `startPage, startPage-1, …, endPage`, fetching each page's
(already chronologically ordered) scrobbles and processing them with
`processPageScrobbles` — whose accumulator starts at `none` on every page,
exactly like the `var previousScrobble *scrobble` declared inside the page
loop of the source. -/
def processScrobblesFromStartToEndPage (env : Env) (c : Cfg)
    (startPage endPage : Int) (userTrackDurations : DurationByTrackByArtist) : Cfg :=
  ((List.range (startPage + 1 - endPage).toNat).map (fun i => startPage - (i : Int))).foldl
    (fun acc currentPage =>
      (processPageScrobbles env acc (env.pageScrobbles currentPage) userTrackDurations).2)
    c

theorem getTrackDuration_frame (env : Env) (c : Cfg)
    (ov : DurationByTrackByArtist) (s : Scrobble) :
    ((getTrackDuration env c ov s).2.2).deletedScrobbles = c.deletedScrobbles ∧
    ((getTrackDuration env c ov s).2.2).deleteRequests = c.deleteRequests := by
  unfold getTrackDuration addToUnknownTrackDurations
  repeat' (first | split | dsimp only)
  all_goals simp

theorem getTrackDuration_error_trackDuration (env : Env) (c : Cfg)
    (ov : DurationByTrackByArtist) (s : Scrobble) (e : TrackDurationError)
    (hs : s.trackDuration ≤ 0)
    (h : (getTrackDuration env c ov s).1 = Except.error e) :
    ((getTrackDuration env c ov s).2.1).trackDuration ≤ 0 := by
  revert h
  unfold getTrackDuration addToUnknownTrackDurations
  repeat' (first | split | dsimp only)
  all_goals intro h
  all_goals simp_all

theorem deleteScrobbleWithRetries_deletedScrobbles (env : Env) (c : Cfg)
    (ts : String) (sel : Bool) :
    ((deleteScrobbleWithRetries env c ts sel).2).deletedScrobbles = c.deletedScrobbles := by
  unfold deleteScrobbleWithRetries
  split <;> simp

theorem deleteScrobbleWithRetries_deleteRequests (env : Env) (c : Cfg)
    (ts : String) (sel : Bool) :
    ((deleteScrobbleWithRetries env c ts sel).2).deleteRequests =
      c.deleteRequests ++ [⟨ts, sel⟩] := by
  unfold deleteScrobbleWithRetries
  split <;> simp

/-- C2: once the current scrobble's duration is resolved, (1) the incomplete
classifier holds exactly when `min(100, 100*Elapsed/D) < completeThreshold`,
with no artist/track condition; (2) a duplicate classification takes strict
priority — the pair is settled by the duplicate branch (current kept as new
previous, previous targeted for deletion) regardless of the incomplete test;
(3) with `completeThreshold ≤ 0` a non-duplicate pair is never classified at
all; (4) a non-duplicate pair with `completeThreshold > 0` that tests
incomplete selects the current scrobble for removal (the delete request
addresses the current scrobble's raw timestamp with the select-last flag). -/
theorem processPreviousAndCurrentScrobbles_incompleteRules (env : Env) (c : Cfg)
    (ov : DurationByTrackByArtist) (prev cur cur' : Scrobble) (c1 : Cfg)
    (hres : getTrackDuration env c ov cur = (Except.ok (), cur', c1)) :
    (detectIncompleteScrobble c1.completeThreshold prev cur' = true ↔
      min 100 (100 * ((cur'.timestamp : ℚ) - (prev.timestamp : ℚ)) / (cur'.trackDuration : ℚ))
        < (c1.completeThreshold : ℚ)) ∧
    (detectDuplicateScrobble c1.duplicateThreshold prev cur' = true →
      (processPreviousAndCurrentScrobbles env c (some prev) cur ov).1 = cur' ∧
      (processPreviousAndCurrentScrobbles env c (some prev) cur ov).2.deletedScrobbles =
        c1.deletedScrobbles ++ [cur'] ∧
      (c1.canDelete = true →
        (processPreviousAndCurrentScrobbles env c (some prev) cur ov).2.deleteRequests =
          c1.deleteRequests ++ [⟨prev.timestampString, false⟩])) ∧
    (detectDuplicateScrobble c1.duplicateThreshold prev cur' = false →
      c1.completeThreshold ≤ 0 →
      processPreviousAndCurrentScrobbles env c (some prev) cur ov = (cur', c1)) ∧
    (detectDuplicateScrobble c1.duplicateThreshold prev cur' = false →
      0 < c1.completeThreshold →
      detectIncompleteScrobble c1.completeThreshold prev cur' = true →
      (processPreviousAndCurrentScrobbles env c (some prev) cur ov).2.deletedScrobbles =
        c1.deletedScrobbles ++ [cur'] ∧
      (c1.canDelete = true →
        (processPreviousAndCurrentScrobbles env c (some prev) cur ov).2.deleteRequests =
          c1.deleteRequests ++ [⟨cur'.timestampString, true⟩])) := by
  refine ⟨?_, ?_, ?_, ?_⟩
  · unfold detectIncompleteScrobble
    rw [show ((cur'.timestamp - prev.timestamp : Int) : ℚ) =
        ((cur'.timestamp : ℚ) - (prev.timestamp : ℚ)) from by push_cast; ring]
    rw [completionPercentage_eq_min]
    exact decide_eq_true_iff
  · intro hdup
    unfold processPreviousAndCurrentScrobbles
    rw [hres]
    cases hcd : c1.canDelete
    · simp [hdup, hcd]
    · simp [hdup, hcd, deleteScrobbleWithRetries_deletedScrobbles,
        deleteScrobbleWithRetries_deleteRequests]
  · intro hdup hle
    have hnlt : ¬ 0 < c1.completeThreshold := not_lt.mpr hle
    unfold processPreviousAndCurrentScrobbles
    rw [hres]
    simp [hdup, hnlt]
  · intro hdup hgt hinc
    unfold processPreviousAndCurrentScrobbles
    rw [hres]
    cases hcd : c1.canDelete
    · simp [hdup, hgt, hinc, hcd]
    · simp [hdup, hgt, hinc, hcd, apply_ite,
        deleteScrobbleWithRetries_deletedScrobbles,
        deleteScrobbleWithRetries_deleteRequests]

/-- C3: on a duplicate classification the later (current) scrobble becomes
the new previous, and the delete request (in live-delete mode) addresses the
previous scrobble's raw timestamp with the select-last flag off; an
incomplete removal instead addresses the current scrobble's raw timestamp
with the select-last flag on. -/
theorem processPreviousAndCurrentScrobbles_duplicateRemovesPrevious (env : Env)
    (c : Cfg) (ov : DurationByTrackByArtist) (prev cur cur' : Scrobble) (c1 : Cfg)
    (hres : getTrackDuration env c ov cur = (Except.ok (), cur', c1)) :
    (detectDuplicateScrobble c1.duplicateThreshold prev cur' = true →
      (processPreviousAndCurrentScrobbles env c (some prev) cur ov).1 = cur' ∧
      (c1.canDelete = true →
        (processPreviousAndCurrentScrobbles env c (some prev) cur ov).2.deleteRequests =
          c1.deleteRequests ++ [⟨prev.timestampString, false⟩])) ∧
    (detectDuplicateScrobble c1.duplicateThreshold prev cur' = false →
      0 < c1.completeThreshold →
      detectIncompleteScrobble c1.completeThreshold prev cur' = true →
      c1.canDelete = true →
      (processPreviousAndCurrentScrobbles env c (some prev) cur ov).2.deleteRequests =
        c1.deleteRequests ++ [⟨cur'.timestampString, true⟩]) := by
  constructor
  · intro hdup
    unfold processPreviousAndCurrentScrobbles
    rw [hres]
    cases hcd : c1.canDelete
    · simp [hdup, hcd]
    · simp [hdup, hcd, deleteScrobbleWithRetries_deleteRequests]
  · intro hdup hgt hinc hcd
    unfold processPreviousAndCurrentScrobbles
    rw [hres]
    simp [hdup, hgt, hinc, hcd, apply_ite, deleteScrobbleWithRetries_deleteRequests]

/-- C10: when duration resolution for the current scrobble fails, the pair
step skips classification (no removal recorded, no delete request issued)
and bumps the skipped counter, yet the current scrobble — whose duration was
never positively resolved — still becomes the new previous scrobble. -/
theorem processPreviousAndCurrentScrobbles_skip (env : Env) (c : Cfg)
    (prevOpt : Option Scrobble) (cur : Scrobble) (ov : DurationByTrackByArtist)
    (e : TrackDurationError) (cur' : Scrobble) (c1 : Cfg)
    (hres : getTrackDuration env c ov cur = (Except.error e, cur', c1)) :
    processPreviousAndCurrentScrobbles env c prevOpt cur ov =
      (cur', { c1 with runStats := { c1.runStats with
        skippedScrobbleUnknownDuration :=
          c1.runStats.skippedScrobbleUnknownDuration + 1 } }) ∧
    c1.deletedScrobbles = c.deletedScrobbles ∧
    c1.deleteRequests = c.deleteRequests ∧
    (cur.trackDuration ≤ 0 → cur'.trackDuration ≤ 0) := by
  refine ⟨?_, ?_, ?_, ?_⟩
  · unfold processPreviousAndCurrentScrobbles
    rw [hres]
  · have hf := (getTrackDuration_frame env c ov cur).1
    rw [hres] at hf
    exact hf
  · have hf := (getTrackDuration_frame env c ov cur).2
    rw [hres] at hf
    exact hf
  · intro hs
    have herr : (getTrackDuration env c ov cur).1 = Except.error e := by rw [hres]
    have hd := getTrackDuration_error_trackDuration env c ov cur e hs herr
    rw [hres] at hd
    exact hd

/-- Environment whose duration-string parser accepts exactly `"240s"`; every
browser delete attempt succeeds. -/
def envLive : Env :=
  { parseDuration := fun str => if str == "240s" then some 240 else none
    durationText := fun _ => ""
    musicBrainz := fun _ _ => Except.ok 0
    lastFM := fun _ => none
    deleteOk := fun _ _ => true
    pageScrobbles := fun _ => [] }

/-- Overrides file resolving `("Artist A", "Track T")` to `"240s"`. -/
def ovGood : DurationByTrackByArtist := [("Artist A", [("Track T", "240s")])]

/-- `samplePrevious` before duration resolution. -/
def rawPrevious : Scrobble := { samplePrevious with trackDuration := 0 }

/-- `sampleCurrent` before duration resolution. -/
def rawCurrent : Scrobble := { sampleCurrent with trackDuration := 0 }

/-- Dry-run config with duplicate threshold 90. -/
def cfgDry90 : Cfg := { cfgEmpty with duplicateThreshold := 90 }

/-- Live-delete config with duplicate threshold 90. -/
def cfgLive90 : Cfg := { cfgEmpty with duplicateThreshold := 90, canDelete := true }

/-- Live-delete config with duplicate threshold 90 and complete threshold 50. -/
def cfgLiveBoth : Cfg :=
  { cfgEmpty with duplicateThreshold := 90, completeThreshold := 50, canDelete := true }

/-- A previous scrobble of a different artist/track that ends 60 time units
before `sampleCurrent` starts. -/
def otherPrevious : Scrobble :=
  { artist := "Artist B", track := "Track U", timestamp := 60
    timestampString := "60", trackDuration := 180, url := "u3" }

theorem processPreviousAndCurrentScrobbles_incompleteRules_witness :
    (getTrackDuration envLive cfgLiveBoth ovGood rawCurrent =
      (Except.ok (), sampleCurrent, cfgLiveBoth)) ∧
    ((detectIncompleteScrobble cfgLiveBoth.completeThreshold otherPrevious sampleCurrent = true ↔
        min 100 (100 * ((sampleCurrent.timestamp : ℚ) - (otherPrevious.timestamp : ℚ))
            / (sampleCurrent.trackDuration : ℚ))
          < (cfgLiveBoth.completeThreshold : ℚ)) ∧
      (detectDuplicateScrobble cfgLiveBoth.duplicateThreshold otherPrevious sampleCurrent = true →
        (processPreviousAndCurrentScrobbles envLive cfgLiveBoth (some otherPrevious) rawCurrent ovGood).1 = sampleCurrent ∧
        (processPreviousAndCurrentScrobbles envLive cfgLiveBoth (some otherPrevious) rawCurrent ovGood).2.deletedScrobbles =
          cfgLiveBoth.deletedScrobbles ++ [sampleCurrent] ∧
        (cfgLiveBoth.canDelete = true →
          (processPreviousAndCurrentScrobbles envLive cfgLiveBoth (some otherPrevious) rawCurrent ovGood).2.deleteRequests =
            cfgLiveBoth.deleteRequests ++ [⟨otherPrevious.timestampString, false⟩])) ∧
      (detectDuplicateScrobble cfgLiveBoth.duplicateThreshold otherPrevious sampleCurrent = false →
        cfgLiveBoth.completeThreshold ≤ 0 →
        processPreviousAndCurrentScrobbles envLive cfgLiveBoth (some otherPrevious) rawCurrent ovGood =
          (sampleCurrent, cfgLiveBoth)) ∧
      (detectDuplicateScrobble cfgLiveBoth.duplicateThreshold otherPrevious sampleCurrent = false →
        0 < cfgLiveBoth.completeThreshold →
        detectIncompleteScrobble cfgLiveBoth.completeThreshold otherPrevious sampleCurrent = true →
        (processPreviousAndCurrentScrobbles envLive cfgLiveBoth (some otherPrevious) rawCurrent ovGood).2.deletedScrobbles =
          cfgLiveBoth.deletedScrobbles ++ [sampleCurrent] ∧
        (cfgLiveBoth.canDelete = true →
          (processPreviousAndCurrentScrobbles envLive cfgLiveBoth (some otherPrevious) rawCurrent ovGood).2.deleteRequests =
            cfgLiveBoth.deleteRequests ++ [⟨sampleCurrent.timestampString, true⟩]))) :=
  ⟨rfl, processPreviousAndCurrentScrobbles_incompleteRules envLive cfgLiveBoth ovGood
    otherPrevious rawCurrent sampleCurrent cfgLiveBoth rfl⟩

theorem processPreviousAndCurrentScrobbles_duplicateRemovesPrevious_witness :
    (getTrackDuration envLive cfgLive90 ovGood rawCurrent =
      (Except.ok (), sampleCurrent, cfgLive90)) ∧
    ((detectDuplicateScrobble cfgLive90.duplicateThreshold samplePrevious sampleCurrent = true →
        (processPreviousAndCurrentScrobbles envLive cfgLive90 (some samplePrevious) rawCurrent ovGood).1 = sampleCurrent ∧
        (cfgLive90.canDelete = true →
          (processPreviousAndCurrentScrobbles envLive cfgLive90 (some samplePrevious) rawCurrent ovGood).2.deleteRequests =
            cfgLive90.deleteRequests ++ [⟨samplePrevious.timestampString, false⟩])) ∧
      (detectDuplicateScrobble cfgLive90.duplicateThreshold samplePrevious sampleCurrent = false →
        0 < cfgLive90.completeThreshold →
        detectIncompleteScrobble cfgLive90.completeThreshold samplePrevious sampleCurrent = true →
        cfgLive90.canDelete = true →
        (processPreviousAndCurrentScrobbles envLive cfgLive90 (some samplePrevious) rawCurrent ovGood).2.deleteRequests =
          cfgLive90.deleteRequests ++ [⟨sampleCurrent.timestampString, true⟩])) :=
  ⟨rfl, processPreviousAndCurrentScrobbles_duplicateRemovesPrevious envLive cfgLive90 ovGood
    samplePrevious rawCurrent sampleCurrent cfgLive90 rfl⟩

theorem processPreviousAndCurrentScrobbles_skip_witness :
    (getTrackDuration envParseFail cfgUnknownAT [] scrobbleOverridden =
      (Except.error TrackDurationError.unknownTrackAlreadyInMap,
        scrobbleOverridden, cfgUnknownAT)) ∧
    (processPreviousAndCurrentScrobbles envParseFail cfgUnknownAT none scrobbleOverridden [] =
      (scrobbleOverridden, { cfgUnknownAT with runStats := { cfgUnknownAT.runStats with
        skippedScrobbleUnknownDuration :=
          cfgUnknownAT.runStats.skippedScrobbleUnknownDuration + 1 } }) ∧
     cfgUnknownAT.deletedScrobbles = cfgUnknownAT.deletedScrobbles ∧
     cfgUnknownAT.deleteRequests = cfgUnknownAT.deleteRequests ∧
     (scrobbleOverridden.trackDuration ≤ 0 → scrobbleOverridden.trackDuration ≤ 0)) :=
  ⟨rfl, processPreviousAndCurrentScrobbles_skip envParseFail cfgUnknownAT none
    scrobbleOverridden [] TrackDurationError.unknownTrackAlreadyInMap
    scrobbleOverridden cfgUnknownAT rfl⟩

/-- Pages as served for the boundary scenario: the older scrobble is the
last (only) record of page 2, its duplicate the first (only) record of
page 1. -/
def envTwoPages : Env :=
  { envLive with pageScrobbles := fun p =>
      if p == 2 then [rawPrevious] else if p == 1 then [rawCurrent] else [] }

/-- The same two records served on a single page. -/
def envOnePage : Env :=
  { envLive with pageScrobbles := fun p =>
      if p == 1 then [rawPrevious, rawCurrent] else [] }

/-- C4 evaluation: the last record of page 2 and the first record of page 1
form a detectable duplicate pair, and the very same two records on one page
do get classified — but the page walk from page 2 to page 1 records no
removal, because `previousScrobble` restarts at nil on every page instead of
carrying over the boundary. -/
theorem detectDuplicateScrobble_samples (thr : Int) (h : thr = 90) :
    detectDuplicateScrobble thr samplePrevious sampleCurrent = true := by
  subst h
  unfold detectDuplicateScrobble
  rw [if_pos ⟨rfl, rfl, by decide⟩, decide_eq_true_eq, completionPercentage_eq_min]
  norm_num [samplePrevious, sampleCurrent, min_def]

theorem processPrev_ok_dup (env : Env) (c : Cfg) (ov : DurationByTrackByArtist)
    (prev cur cur' : Scrobble) (c1 : Cfg)
    (hres : getTrackDuration env c ov cur = (Except.ok (), cur', c1))
    (hdup : detectDuplicateScrobble c1.duplicateThreshold prev cur' = true) :
    processPreviousAndCurrentScrobbles env c (some prev) cur ov =
      if c1.canDelete then
        (cur', (deleteScrobbleWithRetries env
          { c1 with deletedScrobbles := c1.deletedScrobbles ++ [cur'] }
          prev.timestampString false).2)
      else
        (cur', { c1 with deletedScrobbles := c1.deletedScrobbles ++ [cur'] }) := by
  unfold processPreviousAndCurrentScrobbles
  rw [hres]
  simp [hdup]

/-- The state after page 1's first record (`rawPrevious`) has been processed
starting from `cfgDry90`. -/
def cfgStep1 : Cfg :=
  { cfgDry90 with runStats := { cfgDry90.runStats with
    processedScrobbles := cfgDry90.runStats.processedScrobbles + 1 } }

/-- C4 evaluation: the last record of page 2 and the first record of page 1
form a detectable duplicate pair, and the very same two records on one page
do get classified — but the page walk from page 2 to page 1 records no
removal, because `previousScrobble` restarts at nil on every page instead of
carrying over the boundary. -/
theorem processScrobbles_pageBoundary_eval :
    (processScrobblesFromStartToEndPage envTwoPages cfgDry90 2 1 ovGood).deletedScrobbles = [] ∧
    (processScrobblesFromStartToEndPage envOnePage cfgDry90 1 1 ovGood).deletedScrobbles =
      [sampleCurrent] ∧
    detectDuplicateScrobble cfgDry90.duplicateThreshold samplePrevious sampleCurrent = true := by
  refine ⟨by decide, ?_, detectDuplicateScrobble_samples cfgDry90.duplicateThreshold rfl⟩
  have h2gtd : getTrackDuration envOnePage cfgStep1 ovGood rawCurrent =
      (Except.ok (), sampleCurrent, cfgStep1) := rfl
  have h2 := processPrev_ok_dup envOnePage cfgStep1 ovGood samplePrevious rawCurrent
    sampleCurrent cfgStep1 h2gtd (detectDuplicateScrobble_samples cfgStep1.duplicateThreshold rfl)
  rw [if_neg (by decide : ¬ (cfgStep1.canDelete = true))] at h2
  have hA : processScrobblesFromStartToEndPage envOnePage cfgDry90 1 1 ovGood =
      (processPageScrobbles envOnePage cfgDry90 [rawPrevious, rawCurrent] ovGood).2 := rfl
  have hB : processPageScrobbles envOnePage cfgDry90 [rawPrevious, rawCurrent] ovGood =
      (some (processPreviousAndCurrentScrobbles envOnePage cfgStep1
        (some samplePrevious) rawCurrent ovGood).1,
       { (processPreviousAndCurrentScrobbles envOnePage cfgStep1
            (some samplePrevious) rawCurrent ovGood).2 with
          runStats := { (processPreviousAndCurrentScrobbles envOnePage cfgStep1
              (some samplePrevious) rawCurrent ovGood).2.runStats with
            processedScrobbles := (processPreviousAndCurrentScrobbles envOnePage cfgStep1
              (some samplePrevious) rawCurrent ovGood).2.runStats.processedScrobbles + 1 } }) :=
    rfl
  rw [hA, hB]
  dsimp only
  rw [h2]
  simp [cfgStep1, cfgDry90, cfgEmpty]

/-- C8 evaluation: on a duplicate classification the step appends the
*current* (kept) scrobble to `deletedScrobbles` while the delete request it
issues targets the *previous* scrobble's raw timestamp — and the recorded
list is identical in dry-run mode. -/
theorem processPreviousAndCurrentScrobbles_recordsCurrent_eval :
    (processPreviousAndCurrentScrobbles envLive cfgLive90
        (some samplePrevious) rawCurrent ovGood).2.deletedScrobbles = [sampleCurrent] ∧
    (processPreviousAndCurrentScrobbles envLive cfgLive90
        (some samplePrevious) rawCurrent ovGood).2.deleteRequests =
      [⟨samplePrevious.timestampString, false⟩] ∧
    sampleCurrent ≠ samplePrevious ∧
    (processPreviousAndCurrentScrobbles envLive cfgDry90
        (some samplePrevious) rawCurrent ovGood).2.deletedScrobbles = [sampleCurrent] := by
  have hgtdL : getTrackDuration envLive cfgLive90 ovGood rawCurrent =
      (Except.ok (), sampleCurrent, cfgLive90) := rfl
  have hL := processPrev_ok_dup envLive cfgLive90 ovGood samplePrevious rawCurrent
    sampleCurrent cfgLive90 hgtdL (detectDuplicateScrobble_samples cfgLive90.duplicateThreshold rfl)
  rw [if_pos (show cfgLive90.canDelete = true from rfl)] at hL
  have hgtdD : getTrackDuration envLive cfgDry90 ovGood rawCurrent =
      (Except.ok (), sampleCurrent, cfgDry90) := rfl
  have hD := processPrev_ok_dup envLive cfgDry90 ovGood samplePrevious rawCurrent
    sampleCurrent cfgDry90 hgtdD (detectDuplicateScrobble_samples cfgDry90.duplicateThreshold rfl)
  rw [if_neg (by decide : ¬ (cfgDry90.canDelete = true))] at hD
  refine ⟨?_, ?_, by decide, ?_⟩
  · rw [hL]
    simp [deleteScrobbleWithRetries_deletedScrobbles, cfgLive90, cfgEmpty]
  · rw [hL]
    simp [deleteScrobbleWithRetries_deleteRequests, cfgLive90, cfgEmpty]
  · rw [hD]
    simp [cfgDry90, cfgEmpty]

end ScrobbleDedup
